import Mathlib

/-!
Verification of `scripts/count_tokens.py` from the gemini-tuning-pipeline
repository: a single-pass JSONL token estimator.

The script is embedded shallowly:
* `Json` models the values produced by Python's `json.loads` (object keys are
  unique, since `json.loads` yields a `dict`; numbers are modelled as `Int`).
* `json.loads` itself, the GenAI client and the `count_tokens` API are external
  collaborators; they enter as oracle parameters (`jsonLoads`, `clientInitOk`,
  `api`).  The `api` oracle is indexed by the number of calls made so far and
  returns either a token count or a failure (both `APIError` and any other
  exception during the call are fatal in the source, so one error case suffices).
* Python attribute/index semantics used by the extraction code
  (`dict.get`, `[0]`, `['text']`, truthiness, iteration) are modelled by
  `pyGet`, `pyIndex0`, `pyGetItem`, `pyTruthy`, `pyIter`; any operation Python
  would raise on is an `Except.error`, which the script's blanket
  `except Exception` turns into `sys.exit(1)`.
* Observable behaviour is collected in `RunResult`: the exit code, the final
  counters, the list of API calls made (each the list of texts submitted), the
  skip-warnings printed (by the line number they name) and the final report.
-/

inductive Json where
  | null : Json
  | bool : Bool → Json
  | num : Int → Json
  | str : String → Json
  | arr : List Json → Json
  | obj : List (String × Json) → Json


/-- Python `d.get(key, default)`: only dicts have `.get`; on any other value
Python raises `AttributeError`. -/
def pyGet (v : Json) (key : String) (default : Json) : Except Unit Json :=
  match v with
  | Json.obj fields => Except.ok ((fields.lookup key).getD default)
  | _ => Except.error ()

/-- Python `v[0]`: element 0 of a list (`IndexError` when empty), the first
character of a string, and a `KeyError`/`TypeError` on every other value
(a `json.loads` dict has only string keys, so `d[0]` raises `KeyError`). -/
def pyIndex0 (v : Json) : Except Unit Json :=
  match v with
  | Json.arr (x :: _) => Except.ok x
  | Json.arr [] => Except.error ()
  | Json.str s =>
      match s.toList with
      | [] => Except.error ()
      | c :: _ => Except.ok (Json.str (String.mk [c]))
  | _ => Except.error ()

/-- Python `v[key]` for a string key: dict lookup (`KeyError` when absent),
`TypeError` on any non-dict value. -/
def pyGetItem (v : Json) (key : String) : Except Unit Json :=
  match v with
  | Json.obj fields =>
      match fields.lookup key with
      | some x => Except.ok x
      | none => Except.error ()
  | _ => Except.error ()

/-- Python truthiness of a `json.loads` value: `None`, `False`, `0`, `""`,
`[]` and `{}` are falsy, everything else truthy. -/
def pyTruthy (v : Json) : Bool :=
  match v with
  | Json.null => false
  | Json.bool b => b
  | Json.num n => n != 0
  | Json.str s => !s.isEmpty
  | Json.arr xs => !xs.isEmpty
  | Json.obj fields => !fields.isEmpty

/-- Python `for x in v`: lists yield their elements, strings their characters,
dicts their keys; numbers, booleans and `None` raise `TypeError`. -/
def pyIter (v : Json) : Except Unit (List Json) :=
  match v with
  | Json.arr xs => Except.ok xs
  | Json.str s => Except.ok (s.toList.map (fun c => Json.str (String.mk [c])))
  | Json.obj fields => Except.ok (fields.map (fun p => Json.str p.1))
  | _ => Except.error ()

/-- The body of `for content in contents:` — for each entry whose
`content.get('parts')` is truthy, append `content['parts'][0]['text']`. -/
def extractContentTexts : List Json → Except Unit (List Json)
  | [] => Except.ok []
  | c :: cs => do
      let p ← pyGet c "parts" Json.null
      if pyTruthy p then
        let parts ← pyGetItem c "parts"
        let first ← pyIndex0 parts
        let t ← pyGetItem first "text"
        let rest ← extractContentTexts cs
        Except.ok (t :: rest)
      else
        extractContentTexts cs

/-- The field-extraction block of the per-line `try`:
`data.get('systemInstruction', {}).get('parts', [{}])[0].get('text', '')`,
then `data.get('contents', [])` iterated to build `text_to_count`.
An `Except.error` is any Python exception raised here, caught by the blanket
`except Exception` handler. -/
def extractTexts (data : Json) : Except Unit (List Json) := do
  let si0 ← pyGet data "systemInstruction" (Json.obj [])
  let si1 ← pyGet si0 "parts" (Json.arr [Json.obj []])
  let si2 ← pyIndex0 si1
  let system_instruction ← pyGet si2 "text" (Json.str "")
  let contents ← pyGet data "contents" (Json.arr [])
  let items ← pyIter contents
  let ctexts ← extractContentTexts items
  Except.ok ((if pyTruthy system_instruction then [system_instruction] else []) ++ ctexts)

/-- The loop-local state of `count_tokens_in_jsonl`: the two counters, the
API calls made so far (each the `text_to_count` list submitted), and the
skip-warnings printed so far (by the line number the message names). -/
structure LoopState where
  total_tokens : Nat
  total_examples : Nat
  apiCalls : List (List Json)
  warnings : List Nat


def initState : LoopState :=
  { total_tokens := 0, total_examples := 0, apiCalls := [], warnings := [] }

/-- Outcome of one iteration of the line loop: continue with a new state, or
`sys.exit(1)` (API error or unexpected exception) with the state at exit. -/
inductive StepResult where
  | cont : LoopState → StepResult
  | fatal : LoopState → StepResult


/-- Python `line.strip()` with no argument: remove leading and trailing
whitespace (modelled over the ASCII whitespace characters Lean recognises).
Defined by structural recursion on the character list so that it computes. -/
def pyStrip (s : String) : String :=
  String.mk (((s.toList.dropWhile Char.isWhitespace).reverse.dropWhile
    Char.isWhitespace).reverse)

/-- One iteration of `for line in f:`.  `jsonLoads` is the external
`json.loads` (`none` = `json.JSONDecodeError`); `api` is the external
`client.models.count_tokens`, indexed by the number of calls already made. -/
def step (jsonLoads : String → Option Json) (api : Nat → Except Unit Nat)
    (st : LoopState) (line : String) : StepResult :=
  let line := pyStrip line
  if line.isEmpty then
    StepResult.cont st
  else
    match jsonLoads line with
    | none =>
        StepResult.cont { st with warnings := st.warnings ++ [st.total_examples + 1] }
    | some data =>
        match extractTexts data with
        | Except.error _ => StepResult.fatal st
        | Except.ok text_to_count =>
            let st1 := { st with apiCalls := st.apiCalls ++ [text_to_count] }
            match api st.apiCalls.length with
            | Except.error _ => StepResult.fatal st1
            | Except.ok n =>
                StepResult.cont { st1 with
                  total_tokens := st.total_tokens + n,
                  total_examples := st.total_examples + 1 }

/-- The whole line loop; the `Bool` records whether a fatal exit occurred. -/
def runLines (jsonLoads : String → Option Json) (api : Nat → Except Unit Nat) :
    LoopState → List String → LoopState × Bool
  | st, [] => (st, false)
  | st, l :: ls =>
      match step jsonLoads api st l with
      | StepResult.cont st1 => runLines jsonLoads api st1 ls
      | StepResult.fatal st1 => (st1, true)

/-- The final report printed on the success path: file path, example count,
token total, and the 3-epoch estimate `total_tokens * 3`. -/
structure Report where
  file : String
  totalExamples : Nat
  totalTokens : Nat
  estimatedCostTokens : Nat


/-- Everything observable about one run of `count_tokens_in_jsonl`. -/
structure RunResult where
  exitCode : Option Nat
  total_examples : Nat
  total_tokens : Nat
  apiCalls : List (List Json)
  warnings : List Nat
  report : Option Report


/-- Python truthiness of `os.environ.get(name)`: falsy when the variable is
absent (`None`) or set to the empty string. -/
def envTruthy (v : Option String) : Bool :=
  match v with
  | none => false
  | some s => !s.isEmpty

def abortedRun : RunResult :=
  { exitCode := some 1, total_examples := 0, total_tokens := 0,
    apiCalls := [], warnings := [], report := none }

/-- `count_tokens_in_jsonl(file_path, model_name)`.  `fileExists` models
`os.path.exists(file_path)`, `project`/`location` the two environment
variables, `clientInitOk` whether `genai.Client(...)` constructs, and
`lines` the lines of the file. -/
def count_tokens_in_jsonl (fileExists : Bool) (project location : Option String)
    (clientInitOk : Bool) (jsonLoads : String → Option Json)
    (api : Nat → Except Unit Nat) (file_path : String) (lines : List String) :
    RunResult :=
  if !fileExists then
    abortedRun
  else if !envTruthy project || !envTruthy location then
    abortedRun
  else if !clientInitOk then
    abortedRun
  else
    match runLines jsonLoads api initState lines with
    | (st, true) =>
        { exitCode := some 1, total_examples := st.total_examples,
          total_tokens := st.total_tokens, apiCalls := st.apiCalls,
          warnings := st.warnings, report := none }
    | (st, false) =>
        { exitCode := none, total_examples := st.total_examples,
          total_tokens := st.total_tokens, apiCalls := st.apiCalls,
          warnings := st.warnings,
          report := some { file := file_path, totalExamples := st.total_examples,
                           totalTokens := st.total_tokens,
                           estimatedCostTokens := st.total_tokens * 3 } }

/-- Python `s.isspace()`: at least one character and all of them whitespace
(modelled over the ASCII whitespace characters Lean recognises). -/
def pyIsSpace (s : String) : Bool :=
  !s.isEmpty && s.toList.all Char.isWhitespace

/-- The `__main__` path selection: `argparse` supplies the default when the
positional argument is absent, and the script falls back to the same default
when the provided value is empty or whitespace-only
(`if not file_to_check or file_to_check.isspace()`). -/
def resolve_file_path (arg : Option String) : String :=
  match arg with
  | none => "data/training.jsonl"
  | some s => if s.isEmpty || pyIsSpace s then "data/training.jsonl" else s

/-- A line is blank after trimming, or decodes as JSON and its field
extraction succeeds (the successful path of the per-line `try` block, up to
the API call). -/
def goodLine (jl : String → Option Json) (l : String) : Bool :=
  (pyStrip l).isEmpty ||
    match jl (pyStrip l) with
    | none => false
    | some d =>
        match extractTexts d with
        | Except.ok _ => true
        | Except.error _ => false

/-- Number of lines that are non-blank after trimming. -/
def nonBlankCount (lines : List String) : Nat :=
  (lines.filter (fun l => !(pyStrip l).isEmpty)).length

/-- Number of non-blank lines that `json.loads` decodes without error. -/
def decodedCount (jl : String → Option Json) (lines : List String) : Nat :=
  (lines.filter (fun l => !(pyStrip l).isEmpty && (jl (pyStrip l)).isSome)).length

/-- A well-formed record: `{"contents":[{"parts":[{"text":"hi"}]}]}`. -/
def recordHi : Json :=
  Json.obj [("contents",
    Json.arr [Json.obj [("parts", Json.arr [Json.obj [("text", Json.str "hi")]])]])]

/-- Valid JSON, structurally malformed record: the first element of the
non-empty `parts` list has no `"text"` field —
`{"contents":[{"parts":[{}]}]}`. -/
def recordNoText : Json :=
  Json.obj [("contents", Json.arr [Json.obj [("parts", Json.arr [Json.obj []])]])]

/-- Valid JSON, structurally malformed record: `systemInstruction.parts` is an
empty list — `{"systemInstruction":{"parts":[]},"contents":[]}`. -/
def recordEmptyParts : Json :=
  Json.obj [("systemInstruction", Json.obj [("parts", Json.arr [])]),
            ("contents", Json.arr [])]

/-- Decoder oracle for the concrete runs below: `"A"` decodes to `recordHi`,
`"B"` to `recordNoText`, `"E"` to `recordEmptyParts`, everything else is a
`JSONDecodeError`. -/
def demoLoads (s : String) : Option Json :=
  if s = "A" then some recordHi
  else if s = "B" then some recordNoText
  else if s = "E" then some recordEmptyParts
  else none

/-- API oracle for the concrete runs below: every call succeeds with 5 tokens. -/
def demoApi (_ : Nat) : Except Unit Nat :=
  Except.ok 5

/-! ### Step lemmas: the five possible outcomes of one loop iteration -/

theorem step_blank (jl : String → Option Json) (api : Nat → Except Unit Nat)
    (st : LoopState) (l : String) (h : pyStrip l = "") :
    step jl api st l = StepResult.cont st := by
  simp [step, h, String.isEmpty_iff]

theorem step_decodeFail (jl : String → Option Json) (api : Nat → Except Unit Nat)
    (st : LoopState) (l : String) (h1 : pyStrip l ≠ "") (h2 : jl (pyStrip l) = none) :
    step jl api st l =
      StepResult.cont { st with warnings := st.warnings ++ [st.total_examples + 1] } := by
  simp [step, String.isEmpty_iff, h1, h2]

theorem step_extractFail (jl : String → Option Json) (api : Nat → Except Unit Nat)
    (st : LoopState) (l : String) (d : Json) (h1 : pyStrip l ≠ "")
    (h2 : jl (pyStrip l) = some d) (h3 : extractTexts d = Except.error ()) :
    step jl api st l = StepResult.fatal st := by
  simp [step, String.isEmpty_iff, h1, h2, h3]

theorem step_apiFail (jl : String → Option Json) (api : Nat → Except Unit Nat)
    (st : LoopState) (l : String) (d : Json) (ts : List Json) (h1 : pyStrip l ≠ "")
    (h2 : jl (pyStrip l) = some d) (h3 : extractTexts d = Except.ok ts)
    (h4 : api st.apiCalls.length = Except.error ()) :
    step jl api st l = StepResult.fatal { st with apiCalls := st.apiCalls ++ [ts] } := by
  simp [step, String.isEmpty_iff, h1, h2, h3, h4]

theorem step_success (jl : String → Option Json) (api : Nat → Except Unit Nat)
    (st : LoopState) (l : String) (d : Json) (ts : List Json) (n : Nat) (h1 : pyStrip l ≠ "")
    (h2 : jl (pyStrip l) = some d) (h3 : extractTexts d = Except.ok ts)
    (h4 : api st.apiCalls.length = Except.ok n) :
    step jl api st l = StepResult.cont
      { total_tokens := st.total_tokens + n, total_examples := st.total_examples + 1,
        apiCalls := st.apiCalls ++ [ts], warnings := st.warnings } := by
  simp [step, String.isEmpty_iff, h1, h2, h3, h4]

theorem runLines_cons_cont (jl : String → Option Json) (api : Nat → Except Unit Nat)
    (st st1 : LoopState) (l : String) (ls : List String)
    (h : step jl api st l = StepResult.cont st1) :
    runLines jl api st (l :: ls) = runLines jl api st1 ls := by
  simp [runLines, h]

theorem runLines_cons_fatal (jl : String → Option Json) (api : Nat → Except Unit Nat)
    (st st1 : LoopState) (l : String) (ls : List String)
    (h : step jl api st l = StepResult.fatal st1) :
    runLines jl api st (l :: ls) = (st1, true) := by
  simp [runLines, h]

/-! ### Counting helper lemmas -/

theorem trim_isEmpty_true {l : String} (h : pyStrip l = "") : (pyStrip l).isEmpty = true := by
  rw [h]
  rfl

theorem trim_isEmpty_false {l : String} (h : pyStrip l ≠ "") : (pyStrip l).isEmpty = false := by
  rw [Bool.eq_false_iff]
  intro hc
  exact h ((String.isEmpty_iff (pyStrip l)).mp hc)

theorem nonBlankCount_cons_blank (l : String) (ls : List String) (h : pyStrip l = "") :
    nonBlankCount (l :: ls) = nonBlankCount ls := by
  simp [nonBlankCount, List.filter_cons, trim_isEmpty_true h]

theorem nonBlankCount_cons_nonblank (l : String) (ls : List String) (h : pyStrip l ≠ "") :
    nonBlankCount (l :: ls) = nonBlankCount ls + 1 := by
  simp [nonBlankCount, List.filter_cons, trim_isEmpty_false h]

theorem decodedCount_cons_blank (jl : String → Option Json) (l : String) (ls : List String)
    (h : pyStrip l = "") : decodedCount jl (l :: ls) = decodedCount jl ls := by
  simp [decodedCount, List.filter_cons, trim_isEmpty_true h]

theorem decodedCount_cons_nodecode (jl : String → Option Json) (l : String) (ls : List String)
    (h1 : pyStrip l ≠ "") (h2 : jl (pyStrip l) = none) :
    decodedCount jl (l :: ls) = decodedCount jl ls := by
  simp [decodedCount, List.filter_cons, trim_isEmpty_false h1, h2]

theorem decodedCount_cons_decode (jl : String → Option Json) (l : String) (ls : List String)
    (d : Json) (h1 : pyStrip l ≠ "") (h2 : jl (pyStrip l) = some d) :
    decodedCount jl (l :: ls) = decodedCount jl ls + 1 := by
  simp [decodedCount, List.filter_cons, trim_isEmpty_false h1, h2]

theorem sum_shift (t : Nat → Nat) (base m : Nat) :
    t base + ∑ i in Finset.range m, t (base + 1 + i) =
      ∑ i in Finset.range (m + 1), t (base + i) := by
  rw [Finset.sum_range_succ']
  have h1 : ∀ i ∈ Finset.range m, t (base + (i + 1)) = t (base + 1 + i) := by
    intro i _
    have hx : base + (i + 1) = base + 1 + i := by omega
    rw [hx]
  rw [Finset.sum_congr rfl h1]
  have h0 : base + 0 = base := by omega
  rw [h0]
  exact Nat.add_comm _ _

/-- On a file whose every line is good (blank, or decodes and extracts) and an
API oracle that always succeeds, the loop never exits fatally, counts each
non-blank line once, and sums the provider responses in call order. -/
theorem runLines_all_good (jl : String → Option Json) (api : Nat → Except Unit Nat)
    (t : Nat → Nat) (hapi : ∀ k, api k = Except.ok (t k)) (ls : List String) :
    ∀ st : LoopState, (∀ l ∈ ls, goodLine jl l = true) →
      ∃ calls : List (List Json), calls.length = nonBlankCount ls ∧
        runLines jl api st ls =
          ({ total_tokens := st.total_tokens +
               ∑ i in Finset.range (nonBlankCount ls), t (st.apiCalls.length + i),
             total_examples := st.total_examples + nonBlankCount ls,
             apiCalls := st.apiCalls ++ calls,
             warnings := st.warnings }, false) := by
  induction ls with
  | nil =>
      intro st _
      refine ⟨[], rfl, ?_⟩
      simp [runLines, nonBlankCount]
  | cons l ls ih =>
      intro st hgood
      by_cases hb : pyStrip l = ""
      · rw [runLines_cons_cont jl api st st l ls (step_blank jl api st l hb)]
        obtain ⟨calls, hlen, hrun⟩ := ih st (fun x hx => hgood x (List.mem_cons_of_mem l hx))
        refine ⟨calls, ?_, ?_⟩
        · rw [hlen, nonBlankCount_cons_blank l ls hb]
        · rw [hrun, nonBlankCount_cons_blank l ls hb]
      · have hg := hgood l (List.mem_cons_self l ls)
        rw [goodLine, trim_isEmpty_false hb] at hg
        cases h2 : jl (pyStrip l) with
        | none => simp [h2] at hg
        | some d =>
            cases h3 : extractTexts d with
            | error e => simp [h2, h3] at hg
            | ok ts =>
                rw [runLines_cons_cont jl api st _ l ls
                  (step_success jl api st l d ts (t st.apiCalls.length) hb h2 h3 (hapi _))]
                obtain ⟨calls, hlen, hrun⟩ :=
                  ih _ (fun x hx => hgood x (List.mem_cons_of_mem l hx))
                refine ⟨ts :: calls, ?_, ?_⟩
                · simp [hlen, nonBlankCount_cons_nonblank l ls hb]
                · rw [hrun, nonBlankCount_cons_nonblank l ls hb]
                  have happ : (st.apiCalls ++ [ts]).length = st.apiCalls.length + 1 := by
                    simp
                  simp only [happ]
                  have hs := sum_shift t st.apiCalls.length (nonBlankCount ls)
                  simp only [Prod.mk.injEq, LoopState.mk.injEq]
                  exact ⟨⟨by omega, by omega, by simp, by trivial⟩, by trivial⟩

/-- In a run of the loop that never exits fatally, each non-blank line that
decodes contributes exactly one API call. -/
theorem runLines_calls_of_ok (jl : String → Option Json) (api : Nat → Except Unit Nat)
    (ls : List String) :
    ∀ st st1 : LoopState, runLines jl api st ls = (st1, false) →
      st1.apiCalls.length = st.apiCalls.length + decodedCount jl ls := by
  induction ls with
  | nil =>
      intro st st1 h
      simp only [runLines, Prod.mk.injEq] at h
      rw [← h.1]
      simp [decodedCount]
  | cons l ls ih =>
      intro st st1 h
      by_cases hb : pyStrip l = ""
      · rw [runLines_cons_cont jl api st st l ls (step_blank jl api st l hb)] at h
        rw [decodedCount_cons_blank jl l ls hb]
        exact ih st st1 h
      · cases h2 : jl (pyStrip l) with
        | none =>
            rw [runLines_cons_cont jl api st _ l ls (step_decodeFail jl api st l hb h2)] at h
            rw [decodedCount_cons_nodecode jl l ls hb h2]
            have hx := ih _ st1 h
            simpa using hx
        | some d =>
            cases h3 : extractTexts d with
            | error e =>
                rw [runLines_cons_fatal jl api st st l ls
                  (step_extractFail jl api st l d hb h2 h3)] at h
                simp at h
            | ok ts =>
                cases h4 : api st.apiCalls.length with
                | error e4 =>
                    rw [runLines_cons_fatal jl api st _ l ls
                      (step_apiFail jl api st l d ts hb h2 h3 h4)] at h
                    simp at h
                | ok n =>
                    rw [runLines_cons_cont jl api st _ l ls
                      (step_success jl api st l d ts n hb h2 h3 h4)] at h
                    rw [decodedCount_cons_decode jl l ls d hb h2]
                    have hx := ih _ st1 h
                    simp only [List.length_append, List.length_cons,
                      List.length_nil] at hx
                    omega

/-! ### Claims -/

/-- C1: for an input file whose non-blank lines are all well-formed records
(each decodes as JSON and its field extraction succeeds) and an API oracle on
which every token-counting call succeeds, the final report shows an example
count equal to the number N of non-blank lines and a token count equal to the
sum of the per-call provider responses. -/
theorem claim_C1 (project location : Option String) (jl : String → Option Json)
    (api : Nat → Except Unit Nat) (t : Nat → Nat) (file_path : String) (lines : List String)
    (hproj : envTruthy project = true) (hloc : envTruthy location = true)
    (hapi : ∀ k, api k = Except.ok (t k))
    (hlines : ∀ l ∈ lines, goodLine jl l = true) :
    (count_tokens_in_jsonl true project location true jl api file_path lines).report =
      some { file := file_path, totalExamples := nonBlankCount lines,
             totalTokens := ∑ i in Finset.range (nonBlankCount lines), t i,
             estimatedCostTokens := (∑ i in Finset.range (nonBlankCount lines), t i) * 3 } := by
  obtain ⟨calls, hlen, hrun⟩ := runLines_all_good jl api t hapi lines initState hlines
  simp only [count_tokens_in_jsonl, hproj, hloc]
  rw [hrun]
  simp [initState]

/-- Witness for C1: the spec's own worked example, a one-record file plus a
blank line with a 5-token provider response. -/
theorem claim_C1_witness :
    (count_tokens_in_jsonl true (some "p") (some "loc") true demoLoads demoApi
        "data/training.jsonl" ["A", ""]).report =
      some { file := "data/training.jsonl", totalExamples := 1, totalTokens := 5,
             estimatedCostTokens := 15 } := by
  have h := claim_C1 (some "p") (some "loc") demoLoads demoApi (fun _ => 5)
    "data/training.jsonl" ["A", ""] rfl rfl (fun k => rfl) (by decide)
  exact h.trans (by rfl)

/-- C2: whenever the final report is printed, the multi-epoch estimate in it
equals exactly 3 times the total token count in it. -/
theorem claim_C2 (fileExists : Bool) (project location : Option String) (clientInitOk : Bool)
    (jl : String → Option Json) (api : Nat → Except Unit Nat) (file_path : String)
    (lines : List String) (r : Report)
    (h : (count_tokens_in_jsonl fileExists project location clientInitOk jl api
            file_path lines).report = some r) :
    r.estimatedCostTokens = 3 * r.totalTokens := by
  unfold count_tokens_in_jsonl at h
  split at h
  · simp [abortedRun] at h
  · split at h
    · simp [abortedRun] at h
    · split at h
      · simp [abortedRun] at h
      · split at h
        · simp at h
        · simp only [Option.some.injEq] at h
          subst h
          simp [Nat.mul_comm]

/-- Witness for C2: the report of a concrete successful one-record run. -/
theorem claim_C2_witness :
    ({ file := "f", totalExamples := 1, totalTokens := 5,
       estimatedCostTokens := 15 } : Report).estimatedCostTokens =
      3 * ({ file := "f", totalExamples := 1, totalTokens := 5,
             estimatedCostTokens := 15 } : Report).totalTokens := by
  exact claim_C2 true (some "p") (some "loc") true demoLoads demoApi "f" ["A"] _ (by rfl)

/-- C3: a non-blank line that fails JSON decoding is skipped — the loop
continues with the remaining lines from a state whose counters and API-call
log are unchanged and whose only new output is the skip warning. -/
theorem claim_C3 (jl : String → Option Json) (api : Nat → Except Unit Nat)
    (st : LoopState) (l : String) (ls : List String)
    (h1 : pyStrip l ≠ "") (h2 : jl (pyStrip l) = none) :
    runLines jl api st (l :: ls) =
      runLines jl api { st with warnings := st.warnings ++ [st.total_examples + 1] } ls :=
  runLines_cons_cont jl api st _ l ls (step_decodeFail jl api st l h1 h2)

/-- Witness for C3: a concrete undecodable line followed by a valid one. -/
theorem claim_C3_witness :
    runLines demoLoads demoApi initState ["zzz", "A"] =
      runLines demoLoads demoApi { initState with warnings := [1] } ["A"] := by
  exact claim_C3 demoLoads demoApi initState "zzz" ["A"] (by decide) (by rfl)

/-- C4: a line that is empty after trimming changes nothing at all — no
counter, no API call, no diagnostic — and processing moves to the next line. -/
theorem claim_C4 (jl : String → Option Json) (api : Nat → Except Unit Nat)
    (st : LoopState) (l : String) (ls : List String) (h : pyStrip l = "") :
    runLines jl api st (l :: ls) = runLines jl api st ls :=
  runLines_cons_cont jl api st st l ls (step_blank jl api st l h)

/-- Witness for C4: a concrete whitespace-only line. -/
theorem claim_C4_witness :
    runLines demoLoads demoApi initState ["  ", "A"] =
      runLines demoLoads demoApi initState ["A"] := by
  exact claim_C4 demoLoads demoApi initState "  " ["A"] (by decide)

/-- C5: a missing input file, or a missing/empty project or location
environment variable, aborts the process with exit code 1 before any API call
is made and before any line is processed. -/
theorem claim_C5 (fileExists : Bool) (project location : Option String) (clientInitOk : Bool)
    (jl : String → Option Json) (api : Nat → Except Unit Nat) (file_path : String)
    (lines : List String)
    (h : fileExists = false ∨ envTruthy project = false ∨ envTruthy location = false) :
    count_tokens_in_jsonl fileExists project location clientInitOk jl api file_path lines =
      abortedRun := by
  cases fileExists with
  | false => simp [count_tokens_in_jsonl]
  | true =>
      rcases h with h | h | h
      · exact absurd h (by simp)
      · simp [count_tokens_in_jsonl, h]
      · simp [count_tokens_in_jsonl, h]

/-- Witness for C5: the location variable set to the empty string. -/
theorem claim_C5_witness :
    count_tokens_in_jsonl true (some "p") (some "") true demoLoads demoApi "f" ["A"] =
      abortedRun := by
  exact claim_C5 true (some "p") (some "") true demoLoads demoApi "f" ["A"]
    (Or.inr (Or.inr (by rfl)))

/-- C6 counterexample: the file `["B"]` holds one non-blank line that decodes
as JSON without error (`recordNoText`), yet the run makes zero token-counting
calls, because field extraction raises first — refuting "calls = successfully
decoded non-blank lines" as stated. -/
theorem claim_C6_counterexample :
    (count_tokens_in_jsonl true (some "p") (some "loc") true demoLoads demoApi "f"
        ["B"]).apiCalls.length ≠ decodedCount demoLoads ["B"] := by
  decide

/-- C6 (amended): in every run that completes and reaches the final report,
the number of token-counting calls equals the number of non-blank lines that
decoded as JSON without error. -/
theorem claim_C6_amended (fileExists : Bool) (project location : Option String)
    (clientInitOk : Bool) (jl : String → Option Json) (api : Nat → Except Unit Nat)
    (file_path : String) (lines : List String)
    (h : (count_tokens_in_jsonl fileExists project location clientInitOk jl api
            file_path lines).exitCode = none) :
    (count_tokens_in_jsonl fileExists project location clientInitOk jl api
        file_path lines).apiCalls.length = decodedCount jl lines := by
  cases fileExists with
  | false => simp [count_tokens_in_jsonl, abortedRun] at h
  | true =>
      cases hp : envTruthy project with
      | false => simp [count_tokens_in_jsonl, hp, abortedRun] at h
      | true =>
          cases hl : envTruthy location with
          | false => simp [count_tokens_in_jsonl, hp, hl, abortedRun] at h
          | true =>
              cases clientInitOk with
              | false => simp [count_tokens_in_jsonl, hp, hl, abortedRun] at h
              | true =>
                  rcases hrun : runLines jl api initState lines with ⟨st, fatal⟩
                  cases fatal with
                  | true => simp [count_tokens_in_jsonl, hp, hl, hrun] at h
                  | false =>
                      have hcalls := runLines_calls_of_ok jl api lines initState st hrun
                      simp only [count_tokens_in_jsonl, hp, hl, hrun]
                      simpa [initState] using hcalls

/-- Witness for C6 (amended): a completed run over a valid line, a blank line
and an undecodable line makes exactly one call. -/
theorem claim_C6_amended_witness :
    (count_tokens_in_jsonl true (some "p") (some "loc") true demoLoads demoApi "f"
        ["A", "", "zzz"]).apiCalls.length = decodedCount demoLoads ["A", "", "zzz"] := by
  exact claim_C6_amended true (some "p") (some "loc") true demoLoads demoApi "f"
    ["A", "", "zzz"] (by rfl)

/-- C7: the warning for a line that fails JSON decoding names one plus the
number of records successfully decoded and counted so far (`total_examples + 1`),
not the line's position in the file: in the concrete run below the failing line
is the third line of the file, yet the warning names line 2, because only one
record was counted before it. -/
theorem claim_C7 :
    (∀ (jl : String → Option Json) (api : Nat → Except Unit Nat) (st : LoopState)
        (l : String), pyStrip l ≠ "" → jl (pyStrip l) = none →
        step jl api st l =
          StepResult.cont { st with warnings := st.warnings ++ [st.total_examples + 1] }) ∧
    (count_tokens_in_jsonl true (some "p") (some "loc") true demoLoads demoApi "f"
        ["A", " ", "zzz"]).warnings = [2] := by
  constructor
  · intro jl api st l h1 h2
    exact step_decodeFail jl api st l h1 h2
  · rfl

/-- Witness for C7: a concrete decode failure with no records counted yet is
reported as line 1. -/
theorem claim_C7_witness :
    step demoLoads demoApi initState "zzz" =
      StepResult.cont { initState with warnings := [1] } := by
  exact claim_C7.1 demoLoads demoApi initState "zzz" (by decide) (by rfl)

/-- C8: an absent, empty, or whitespace-only positional file argument falls
back to the default `data/training.jsonl`; any other value is used exactly. -/
theorem claim_C8 :
    resolve_file_path none = "data/training.jsonl" ∧
    (∀ s : String, s = "" ∨ pyIsSpace s = true →
        resolve_file_path (some s) = "data/training.jsonl") ∧
    (∀ s : String, s ≠ "" → pyIsSpace s = false → resolve_file_path (some s) = s) := by
  refine ⟨rfl, ?_, ?_⟩
  · intro s h
    rcases h with h | h
    · subst h
      rfl
    · simp [resolve_file_path, h]
  · intro s h1 h2
    have h3 : s.isEmpty = false := by
      rw [Bool.eq_false_iff]
      intro hc
      exact h1 ((String.isEmpty_iff s).mp hc)
    simp [resolve_file_path, h2, h3]

/-- Witness for C8: a whitespace-only argument falls back, a real path is kept. -/
theorem claim_C8_witness :
    resolve_file_path (some "   ") = "data/training.jsonl" ∧
    resolve_file_path (some "my.jsonl") = "my.jsonl" :=
  ⟨claim_C8.2.1 "   " (Or.inr (by decide)), claim_C8.2.2 "my.jsonl" (by decide) (by decide)⟩

/-- C9: both counters start at zero and, over any loop iteration, never
decrease; they change exactly when a record is successfully parsed and
successfully counted, and then by exactly +1 example and +`n` tokens where `n`
is the provider-returned count. -/
theorem claim_C9 :
    initState.total_tokens = 0 ∧ initState.total_examples = 0 ∧
    (∀ (jl : String → Option Json) (api : Nat → Except Unit Nat) (st : LoopState)
        (l : String) (st1 : LoopState),
      (step jl api st l = StepResult.cont st1 ∨ step jl api st l = StepResult.fatal st1) →
      (st.total_tokens ≤ st1.total_tokens ∧ st.total_examples ≤ st1.total_examples) ∧
      ((st1.total_tokens = st.total_tokens ∧ st1.total_examples = st.total_examples) ∨
       (∃ d ts n, jl (pyStrip l) = some d ∧ extractTexts d = Except.ok ts ∧
         api st.apiCalls.length = Except.ok n ∧
         st1.total_tokens = st.total_tokens + n ∧
         st1.total_examples = st.total_examples + 1))) := by
  refine ⟨rfl, rfl, ?_⟩
  intro jl api st l st1 h
  by_cases hb : pyStrip l = ""
  · rw [step_blank jl api st l hb] at h
    rcases h with h | h
    · injection h with h
      subst h
      exact ⟨⟨Nat.le_refl _, Nat.le_refl _⟩, Or.inl ⟨rfl, rfl⟩⟩
    · exact StepResult.noConfusion h
  · cases h2 : jl (pyStrip l) with
    | none =>
        rw [step_decodeFail jl api st l hb h2] at h
        rcases h with h | h
        · injection h with h
          subst h
          exact ⟨⟨Nat.le_refl _, Nat.le_refl _⟩, Or.inl ⟨rfl, rfl⟩⟩
        · exact StepResult.noConfusion h
    | some d =>
        cases h3 : extractTexts d with
        | error e =>
            rw [step_extractFail jl api st l d hb h2 h3] at h
            rcases h with h | h
            · exact StepResult.noConfusion h
            · injection h with h
              subst h
              exact ⟨⟨Nat.le_refl _, Nat.le_refl _⟩, Or.inl ⟨rfl, rfl⟩⟩
        | ok ts =>
            cases h4 : api st.apiCalls.length with
            | error e4 =>
                rw [step_apiFail jl api st l d ts hb h2 h3 h4] at h
                rcases h with h | h
                · exact StepResult.noConfusion h
                · injection h with h
                  subst h
                  exact ⟨⟨Nat.le_refl _, Nat.le_refl _⟩, Or.inl ⟨rfl, rfl⟩⟩
            | ok n =>
                rw [step_success jl api st l d ts n hb h2 h3 h4] at h
                rcases h with h | h
                · injection h with h
                  subst h
                  exact ⟨⟨Nat.le_add_right _ _, Nat.le_add_right _ _⟩,
                    Or.inr ⟨d, ts, n, rfl, h3, rfl, rfl, rfl⟩⟩
                · exact StepResult.noConfusion h

/-- Witness for C9: a successful one-record iteration from the initial state. -/
theorem claim_C9_witness :
    initState.total_tokens ≤ 5 ∧ initState.total_examples ≤ 1 := by
  exact (claim_C9.2.2 demoLoads demoApi initState "A"
    { total_tokens := 5, total_examples := 1, apiCalls := [[Json.str "hi"]], warnings := [] }
    (Or.inl (by rfl))).1

/-- C10: valid-JSON lines that are structurally malformed are fatal, not
skipped: a content entry whose non-empty parts list's first element lacks a
`text` field (`recordNoText`), and a `systemInstruction` whose `parts` is an
empty list (`recordEmptyParts`), both make field extraction raise, and the run
exits with code 1 having made no token-counting call, printed no skip warning
and emitted no final report. -/
theorem claim_C10 :
    extractTexts recordNoText = Except.error () ∧
    extractTexts recordEmptyParts = Except.error () ∧
    count_tokens_in_jsonl true (some "p") (some "loc") true demoLoads demoApi "f" ["B"] =
      { exitCode := some 1, total_examples := 0, total_tokens := 0, apiCalls := [],
        warnings := [], report := none } ∧
    count_tokens_in_jsonl true (some "p") (some "loc") true demoLoads demoApi "f" ["E"] =
      { exitCode := some 1, total_examples := 0, total_tokens := 0, apiCalls := [],
        warnings := [], report := none } :=
  ⟨rfl, rfl, rfl, rfl⟩
